import Mathlib

/-!
Verification of `scripts/imessage-reader.c` (chief-of-staff repository).

The program is a single-shot CLI utility: it parses an optional
`--minutes N` flag, resolves `$HOME/Library/Messages/chat.db`, runs one
fixed SQL query against the message store, and streams the matching rows
as a JSON array on standard output.

This file gives a shallow embedding of that C program:
  * bytes are `Nat` values (< 256, nonzero inside NUL-terminated strings);
  * output streams are `List Char`;
  * the external SQLite engine is an oracle (`Env`) supplying the outcome
    of `open`/`prepare`/`bind` and the fetched rows;
  * `main` becomes the pure function `runProgram : Env → ProcResult`.
-/

namespace IMessageReader

/-! ## JSON string emitter (`print_json_string`, imessage-reader.c lines 38-64) -/

/-- Lowercase hexadecimal digit, as produced by `printf("%04x", ...)`. -/
def hexDigit (n : Nat) : Char :=
  Char.ofNat (if n < 10 then 48 + n else 87 + n)

/-- The escape emitted for one byte by the `switch` in `print_json_string`:
seven two-character escapes, `\u00XX` for the remaining control bytes,
and the raw byte otherwise. -/
def escByte (c : Nat) : List Char :=
  if c = 34 then ['\\', '"']
  else if c = 92 then ['\\', '\\']
  else if c = 10 then ['\\', 'n']
  else if c = 13 then ['\\', 'r']
  else if c = 9 then ['\\', 't']
  else if c = 8 then ['\\', 'b']
  else if c = 12 then ['\\', 'f']
  else if c < 32 then ['\\', 'u', '0', '0', hexDigit (c / 16), hexDigit (c % 16)]
  else [Char.ofNat c]

/-- The `for` loop of `print_json_string`, over the bytes of the C string. -/
def escLoop : List Nat → List Char
  | [] => []
  | c :: cs => escByte c ++ escLoop cs

/-- Function `print_json_string`: a NULL pointer prints `""`; otherwise the bytes are
escaped between two double quotes. -/
def printJsonString : Option (List Nat) → List Char
  | none => ['"', '"']
  | some bs => '"' :: (escLoop bs ++ ['"'])

/-! ## Row emission (`main` loop body, lines 136-152) -/

/-- One fetched row: the three selected columns, each possibly NULL. -/
structure Row where
  guid : Option (List Nat)
  text : Option (List Nat)
  date_local : Option (List Nat)

/-- The JSON object printed for one row (lines 144-150). -/
def emitRow (r : Row) : List Char :=
  "\x7b\"guid\":".data ++ printJsonString r.guid
    ++ ",\"text\":".data ++ printJsonString r.text
    ++ ",\"date_local\":".data ++ printJsonString r.date_local
    ++ "\x7d".data

/-- The `while (sqlite3_step ...)` loop with its `row_count` comma logic. -/
def emitRowsLoop : List Row → Nat → List Char
  | [], _ => []
  | r :: rs, n => (if 0 < n then [','] else []) ++ emitRow r ++ emitRowsLoop rs (n + 1)

/-! ## Argument parsing (`main`, lines 75-90) -/

/-- C `isspace` on the default locale, as `atoi` skips it. -/
def isSpaceByte (c : Char) : Bool :=
  c = ' ' || c = '\t' || c = '\n' || c = '\x0b' || c = '\x0c' || c = '\r'

/-- Leading-whitespace skipping performed by C `atoi`. -/
def skipWs : List Char → List Char
  | [] => []
  | c :: cs => if isSpaceByte c then skipWs cs else c :: cs

/-- Accumulate the leading run of decimal digits, C-style. -/
def digitsAcc : List Char → Nat → Nat
  | [], acc => acc
  | c :: cs, acc => if c.isDigit then digitsAcc cs (acc * 10 + (c.toNat - 48)) else acc

/-- C `atoi`: skip whitespace, optional sign, then the longest digit prefix;
`0` when no digits follow. (Exact integer arithmetic; the C `int` overflow
case is undefined behaviour and outside every claim considered here.) -/
def atoi (s : String) : Int :=
  match skipWs s.data with
  | '-' :: cs => -(digitsAcc cs 0 : Int)
  | '+' :: cs => (digitsAcc cs 0 : Int)
  | cs => (digitsAcc cs 0 : Int)

/-- Usage message printed by `usage()` before `exit(1)`. -/
def usageMsg (prog : String) : List Char :=
  ("Usage: " ++ prog ++ " [--minutes N]\n").data

/-- The argument loop of `main`: on success the final `minutes` value, on
failure the text written to standard error (the process then exits 1). -/
def parseArgsLoop (prog : String) : List String → Int → Except (List Char) Int
  | [], m => .ok m
  | a :: rest, _m =>
    if a = "--minutes" then
      match rest with
      | [] => .error (("Error: --minutes requires a value\n").data ++ usageMsg prog)
      | v :: rest2 =>
        if atoi v ≤ 0 then
          .error ("Error: minutes must be a positive integer\n").data
        else
          parseArgsLoop prog rest2 (atoi v)
    else
      .error (("Error: unknown argument \x27" ++ a ++ "\x27\n").data ++ usageMsg prog)

/-! ## Database path construction (`main`, lines 92-104) -/

/-- The fixed suffix appended to the home directory. -/
def dbSuffix : List Char := "/Library/Messages/chat.db".data

/-- Call `snprintf(db_path, 1024, "%s/Library/Messages/chat.db", home)`:
the formatted string is truncated to 1023 bytes plus the terminating NUL;
`snprintf` never fails here and its return value is ignored. -/
def buildDbPath (home : List Char) : List Char :=
  (home ++ dbSuffix).take 1023

/-! ## SQL timestamp threshold (`SQL_QUERY`, lines 25-36)

The `WHERE` clause compares `m.date` against
`((strftime('%s','now') - 978307200 - (? * 60)) * 1000000000)`,
with `?` bound to the parsed minutes value. -/

/-- The threshold computed inside the SQL query, in SQLite's exact 64-bit
integer arithmetic (modelled as `Int`; no value in range overflows). -/
def sqlThreshold (unixNow minutes : Int) : Int :=
  (unixNow - 978307200 - minutes * 60) * 1000000000

/-- The time condition of the `WHERE` clause on a row's raw `m.date`. -/
def rowTimeQualifies (date unixNow minutes : Int) : Bool :=
  sqlThreshold unixNow minutes < date

/-! ## Whole-program model (`main`, lines 71-165)

The SQLite engine, the environment and the user database are external;
an `Env` records their responses to the program's calls. -/

/-- External-world oracle for one run of the program. -/
structure Env where
  /-- The program name `argv[0]`. -/
  prog : String
  /-- The arguments `argv[1..]`. -/
  args : List String
  /-- The value of `getenv("HOME")`. -/
  home : Option (List Char)
  /-- The value of `getpwuid(getuid())->pw_dir`, when the passwd lookup succeeds. -/
  pwDir : Option (List Char)
  /-- Whether `sqlite3_open_v2` returns `SQLITE_OK`. -/
  openOk : Bool
  /-- Whether `sqlite3_prepare_v2` returns `SQLITE_OK`. -/
  prepareOk : Bool
  /-- Whether `sqlite3_bind_int` returns `SQLITE_OK`. -/
  bindOk : Bool
  /-- The rows returned by successive `sqlite3_step` calls. -/
  rows : List Row
  /-- Whether, after the rows, `sqlite3_step` reports an error
  (instead of `SQLITE_DONE`). -/
  stepError : Bool
  /-- The `sqlite3_errmsg(db)` text used in diagnostics. -/
  errmsg : List Char

/-- Observable outcome of one run. -/
structure ProcResult where
  /-- Everything written to standard output. -/
  stdout : List Char
  /-- Everything written to standard error. -/
  stderr : List Char
  /-- The process exit status. -/
  exitCode : Nat
  /-- The value passed to `sqlite3_bind_int`, when that call is reached. -/
  minutesBound : Option Int
  /-- The path passed to `sqlite3_open_v2`, when that call is reached. -/
  pathOpened : Option (List Char)

/-- Home-directory resolution (lines 94-103): `$HOME`, else the passwd
entry. -/
def homeDirOf (e : Env) : Option (List Char) :=
  match e.home with
  | some h => some h
  | none => e.pwDir

/-- The body of `main` as a function of the oracle. -/
def runProgram (e : Env) : ProcResult :=
  match parseArgsLoop e.prog e.args 20 with
  | .error msg => ⟨[], msg, 1, none, none⟩
  | .ok minutes =>
    match homeDirOf e with
    | none => ⟨[], ("Error: cannot determine home directory\n").data, 1, none, none⟩
    | some home =>
      let path := buildDbPath home
      if !e.openOk then
        ⟨[], ("Error: cannot open ").data ++ path ++ (": ").data ++ e.errmsg ++ ("\n").data,
          1, none, some path⟩
      else if !e.prepareOk then
        ⟨[], ("Error: SQL prepare failed: ").data ++ e.errmsg ++ ("\n").data,
          1, none, some path⟩
      else if !e.bindOk then
        ⟨[], ("Error: bind failed: ").data ++ e.errmsg ++ ("\n").data,
          1, some minutes, some path⟩
      else
        let out := '[' :: emitRowsLoop e.rows 0 ++ [']', '\n']
        if e.stepError then
          ⟨out, ("Error: query execution failed: ").data ++ e.errmsg ++ ("\n").data,
            1, some minutes, some path⟩
        else
          ⟨out, [], 0, some minutes, some path⟩

/-! ## Spec-side definitions

These follow the wording of the specification, to be compared with the
definitions translated from the C source above. -/

/-- Comma-separated concatenation with no trailing comma (spec wording for
the array layout). -/
def sepByComma : List (List Char) → List Char
  | [] => []
  | [x] => x
  | x :: y :: xs => x ++ ',' :: sepByComma (y :: xs)

/-- Spec wording for a numeric argument string: an optional sign followed
by one or more decimal digits and nothing else. -/
def isNumericStr (s : String) : Bool :=
  match s.data with
  | [] => false
  | '-' :: ds => !ds.isEmpty && ds.all Char.isDigit
  | '+' :: ds => !ds.isEmpty && ds.all Char.isDigit
  | ds => ds.all Char.isDigit

/-! ## A standard JSON string-literal decoder (spec side, for round-trips)

Models the string-literal grammar of RFC 8259: the named single-character
escapes, `\uXXXX` escapes, and no unescaped control characters. -/

/-- Value of one hexadecimal digit character. -/
def hexVal (c : Char) : Option Nat :=
  if '0' ≤ c ∧ c ≤ '9' then some (c.toNat - 48)
  else if 'a' ≤ c ∧ c ≤ 'f' then some (c.toNat - 87)
  else if 'A' ≤ c ∧ c ≤ 'F' then some (c.toNat - 55)
  else none

/-- Code point of a named (single-character) JSON escape. -/
def escCharVal (e : Char) : Option Nat :=
  if e = '"' then some 34
  else if e = '\\' then some 92
  else if e = '/' then some 47
  else if e = 'n' then some 10
  else if e = 'r' then some 13
  else if e = 't' then some 9
  else if e = 'b' then some 8
  else if e = 'f' then some 12
  else none

/-- Decode the body of a JSON string literal (everything after the opening
quote), requiring the closing quote to end the input. -/
def decodeLitBody (l : List Char) : Option (List Nat) :=
  match l with
  | [] => none
  | c :: rest =>
    if c = '"' then (if rest = [] then some [] else none)
    else if c = '\\' then
      match rest with
      | [] => none
      | e :: rest2 =>
        if e = 'u' then
          match rest2 with
          | h1 :: h2 :: h3 :: h4 :: rest3 =>
            match hexVal h1, hexVal h2, hexVal h3, hexVal h4 with
            | some a, some b, some c2, some d =>
              (decodeLitBody rest3).map (fun bs => (((a * 16 + b) * 16 + c2) * 16 + d) :: bs)
            | _, _, _, _ => none
          | _ => none
        else
          match escCharVal e with
          | some v => (decodeLitBody rest2).map (fun bs => v :: bs)
          | none => none
    else if c.toNat < 32 then none
    else (decodeLitBody rest).map (fun bs => c.toNat :: bs)

/-- Decode a complete JSON string literal, opening quote included. -/
def decodeJsonStringLit (l : List Char) : Option (List Nat) :=
  match l with
  | '"' :: rest => decodeLitBody rest
  | _ => none

/-- Flag list `--minutes v1 --minutes v2 ...` for C9. -/
def minutesArgs : List String → List String
  | [] => []
  | v :: vs => "--minutes" :: v :: minutesArgs vs

/-- A concrete run whose `--minutes` value is the non-numeric string
`3abc`. -/
def envC1 : Env :=
  { prog := "imessage-reader", args := ["--minutes", "3abc"],
    home := some ("/Users/u").data, pwDir := none, openOk := true, prepareOk := true,
    bindOk := true, rows := [], stepError := false, errmsg := [] }

/-- A concrete run with `--minutes 15`. -/
def envC1w : Env :=
  { prog := "imessage-reader", args := ["--minutes", "15"],
    home := some ("/Users/u").data, pwDir := none, openOk := true, prepareOk := true,
    bindOk := true, rows := [], stepError := false, errmsg := [] }

/-- A concrete successful run returning one row. -/
def envRows : Env :=
  { prog := "imessage-reader", args := [],
    home := some ("/Users/u").data, pwDir := none, openOk := true, prepareOk := true,
    bindOk := true, rows := [⟨some [97], some [106], some [100]⟩], stepError := false,
    errmsg := [] }

/-- The same run, but `sqlite3_step` fails after the row. -/
def envStepErr : Env :=
  { envRows with stepError := true, errmsg := ("disk error").data }

/-- A concrete run whose home directory is 1100 bytes long. -/
def envLongHome : Env :=
  { prog := "imessage-reader", args := [],
    home := some (List.replicate 1100 'a'), pwDir := none, openOk := true,
    prepareOk := true, bindOk := true, rows := [], stepError := false, errmsg := [] }

theorem parse_minutesArgs (prog : String) (vs : List String) (m0 : Int)
    (hall : ∀ v ∈ vs, 0 < atoi v) :
    parseArgsLoop prog (minutesArgs vs) m0 = .ok ((vs.map atoi).getLastD m0) := by
  induction vs generalizing m0 with
  | nil => simp [minutesArgs, parseArgsLoop]
  | cons v vs ih =>
    have hv : ¬ atoi v ≤ 0 := by
      have := hall v (by simp)
      omega
    simp only [minutesArgs, parseArgsLoop, if_pos rfl, hv, if_false, List.map_cons,
      List.getLastD_cons]
    exact ih (atoi v) fun x hx => hall x (by simp [hx])

theorem toNat_ofNat_valid {n : Nat} (h : n.isValidChar) : (Char.ofNat n).toNat = n := by
  rw [Char.ofNat, dif_pos h]
  rfl

theorem toNat_ofNat_byte {n : Nat} (h : n < 256) : (Char.ofNat n).toNat = n :=
  toNat_ofNat_valid (Or.inl (by omega))

theorem escLoop_flatten (bs : List Nat) : escLoop bs = (bs.map escByte).flatten := by
  induction bs with
  | nil => rfl
  | cons c cs ih => simp [escLoop, ih]

theorem emitRowsLoop_pos (rs : List Row) (n : Nat) (h : 0 < n) :
    emitRowsLoop rs n = (rs.map (fun r => ',' :: emitRow r)).flatten := by
  induction rs generalizing n with
  | nil => rfl
  | cons r rs ih => simp [emitRowsLoop, h, ih (n + 1) (by omega)]

theorem sepByComma_cons (x : List Char) (xs : List (List Char)) :
    sepByComma (x :: xs) = x ++ (xs.map (fun y => ',' :: y)).flatten := by
  induction xs generalizing x with
  | nil => simp [sepByComma]
  | cons y ys ih => simp [sepByComma, ih y]

theorem emitRowsLoop_zero (rows : List Row) :
    emitRowsLoop rows 0 = sepByComma (rows.map emitRow) := by
  cases rows with
  | nil => rfl
  | cons r rs =>
    simp [emitRowsLoop, emitRowsLoop_pos rs 1 (by omega), sepByComma_cons, List.map_map,
      Function.comp_def]

theorem hexVal_hexDigit : ∀ n : Nat, n < 16 → hexVal (hexDigit n) = some n := by decide

theorem decode_cons_plain (c : Char) (rest : List Char)
    (h1 : c ≠ '"') (h2 : c ≠ '\\') (h3 : ¬ c.toNat < 32) :
    decodeLitBody (c :: rest) = (decodeLitBody rest).map (fun bs => c.toNat :: bs) := by
  conv_lhs => rw [decodeLitBody.eq_def]
  simp [h1, h2, h3]

theorem decode_cons_esc (e : Char) (v : Nat) (rest : List Char)
    (he : escCharVal e = some v) (hu : e ≠ 'u') :
    decodeLitBody ('\\' :: e :: rest) = (decodeLitBody rest).map (fun bs => v :: bs) := by
  conv_lhs => rw [decodeLitBody.eq_def]
  simp [he, hu]

theorem decode_cons_u (h1 h2 h3 h4 : Char) (a b c d : Nat) (rest : List Char)
    (ha : hexVal h1 = some a) (hb : hexVal h2 = some b)
    (hc : hexVal h3 = some c) (hd : hexVal h4 = some d) :
    decodeLitBody ('\\' :: 'u' :: h1 :: h2 :: h3 :: h4 :: rest)
      = (decodeLitBody rest).map (fun bs => (((a * 16 + b) * 16 + c) * 16 + d) :: bs) := by
  conv_lhs => rw [decodeLitBody.eq_def]
  simp [ha, hb, hc, hd]

theorem decode_quote_end : decodeLitBody ['"'] = some [] := rfl

theorem escByte_printable (c : Nat) (h32 : 32 ≤ c) (h34 : c ≠ 34) (h92 : c ≠ 92) :
    escByte c = [Char.ofNat c] := by
  simp only [escByte]
  rw [if_neg h34, if_neg h92, if_neg (by omega), if_neg (by omega), if_neg (by omega),
    if_neg (by omega), if_neg (by omega), if_neg (by omega)]

theorem escByte_control (c : Nat) (hlt : c < 32)
    (hn : c ∉ ([34, 92, 10, 13, 9, 8, 12] : List Nat)) :
    escByte c = ['\\', 'u', '0', '0', hexDigit (c / 16), hexDigit (c % 16)] := by
  simp only [List.mem_cons, List.not_mem_nil, or_false, not_or] at hn
  obtain ⟨n34, n92, n10, n13, n9, n8, n12⟩ := hn
  simp only [escByte]
  rw [if_neg n34, if_neg n92, if_neg n10, if_neg n13, if_neg n9, if_neg n8, if_neg n12,
    if_pos hlt]

theorem decode_escByte (c : Nat) (hc : c < 256) (rest : List Char) (bs : List Nat)
    (ih : decodeLitBody rest = some bs) :
    decodeLitBody (escByte c ++ rest) = some (c :: bs) := by
  by_cases e34 : c = 34
  · subst e34
    rw [show escByte 34 ++ rest = '\\' :: '"' :: rest from rfl,
      decode_cons_esc '"' 34 rest rfl (by decide), ih]
    rfl
  by_cases e92 : c = 92
  · subst e92
    rw [show escByte 92 ++ rest = '\\' :: '\\' :: rest from rfl,
      decode_cons_esc '\\' 92 rest rfl (by decide), ih]
    rfl
  by_cases e10 : c = 10
  · subst e10
    rw [show escByte 10 ++ rest = '\\' :: 'n' :: rest from rfl,
      decode_cons_esc 'n' 10 rest rfl (by decide), ih]
    rfl
  by_cases e13 : c = 13
  · subst e13
    rw [show escByte 13 ++ rest = '\\' :: 'r' :: rest from rfl,
      decode_cons_esc 'r' 13 rest rfl (by decide), ih]
    rfl
  by_cases e9 : c = 9
  · subst e9
    rw [show escByte 9 ++ rest = '\\' :: 't' :: rest from rfl,
      decode_cons_esc 't' 9 rest rfl (by decide), ih]
    rfl
  by_cases e8 : c = 8
  · subst e8
    rw [show escByte 8 ++ rest = '\\' :: 'b' :: rest from rfl,
      decode_cons_esc 'b' 8 rest rfl (by decide), ih]
    rfl
  by_cases e12 : c = 12
  · subst e12
    rw [show escByte 12 ++ rest = '\\' :: 'f' :: rest from rfl,
      decode_cons_esc 'f' 12 rest rfl (by decide), ih]
    rfl
  by_cases hlt : c < 32
  · rw [escByte_control c hlt (by simp [e34, e92, e10, e13, e9, e8, e12]),
      show ('\\' :: 'u' :: '0' :: '0' :: hexDigit (c / 16) :: hexDigit (c % 16) :: [] : List Char)
          ++ rest
        = '\\' :: 'u' :: '0' :: '0' :: hexDigit (c / 16) :: hexDigit (c % 16) :: rest from rfl,
      decode_cons_u '0' '0' (hexDigit (c / 16)) (hexDigit (c % 16)) 0 0 (c / 16) (c % 16) rest
        rfl rfl (hexVal_hexDigit _ (by omega)) (hexVal_hexDigit _ (by omega))]
    have hcv : ((0 * 16 + 0) * 16 + c / 16) * 16 + c % 16 = c := by omega
    simp only [hcv]
    rw [ih]
    rfl
  · have hne1 : Char.ofNat c ≠ '"' := fun h =>
      e34 (by simpa [toNat_ofNat_byte hc] using congrArg Char.toNat h)
    have hne2 : Char.ofNat c ≠ '\\' := fun h =>
      e92 (by simpa [toNat_ofNat_byte hc] using congrArg Char.toNat h)
    have hne3 : ¬ (Char.ofNat c).toNat < 32 := by rw [toNat_ofNat_byte hc]; omega
    rw [escByte_printable c (by omega) e34 e92,
      show [Char.ofNat c] ++ rest = Char.ofNat c :: rest from rfl,
      decode_cons_plain _ _ hne1 hne2 hne3, ih, toNat_ofNat_byte hc]
    rfl

theorem decode_escLoop (bs : List Nat) (h : ∀ c ∈ bs, c < 256) :
    decodeLitBody (escLoop bs ++ ['"']) = some bs := by
  induction bs with
  | nil => exact decode_quote_end
  | cons c cs ih =>
    rw [escLoop, List.append_assoc]
    exact decode_escByte c (h c (by simp)) _ cs (ih fun x hx => h x (by simp [hx]))

/-- Claim C2: `print_json_string` wraps its input in double quotes and maps each
byte independently: the seven named control characters to their
two-character escapes, every other byte below 0x20 to a six-character
`\u00XX` escape, and every other byte through unchanged. -/
theorem c2_json_escape_table (bs : List Nat) (c : Nat) (hc : c < 256) :
    printJsonString (some bs) = '"' :: ((bs.map escByte).flatten ++ ['"'])
    ∧ escByte 34 = ['\\', '"'] ∧ escByte 92 = ['\\', '\\']
    ∧ escByte 10 = ['\\', 'n'] ∧ escByte 13 = ['\\', 'r'] ∧ escByte 9 = ['\\', 't']
    ∧ escByte 8 = ['\\', 'b'] ∧ escByte 12 = ['\\', 'f']
    ∧ (c < 32 → c ∉ ([34, 92, 10, 13, 9, 8, 12] : List Nat) →
        escByte c = ['\\', 'u', '0', '0', hexDigit (c / 16), hexDigit (c % 16)]
          ∧ (escByte c).length = 6)
    ∧ (32 ≤ c → c ≠ 34 → c ≠ 92 → escByte c = [Char.ofNat c]) := by
  refine ⟨by simp [printJsonString, escLoop_flatten], rfl, rfl, rfl, rfl, rfl, rfl, rfl, ?_, ?_⟩
  · intro hlt hn
    exact ⟨escByte_control c hlt hn, by rw [escByte_control c hlt hn]; rfl⟩
  · intro h32 h34 h92
    exact escByte_printable c h32 h34 h92

theorem c2_json_escape_table_witness :
    (1 : Nat) < 256
    ∧ (printJsonString (some [34, 1, 65])
        = '"' :: ((([34, 1, 65] : List Nat).map escByte).flatten ++ ['"'])
      ∧ escByte 34 = ['\\', '"'] ∧ escByte 92 = ['\\', '\\']
      ∧ escByte 10 = ['\\', 'n'] ∧ escByte 13 = ['\\', 'r'] ∧ escByte 9 = ['\\', 't']
      ∧ escByte 8 = ['\\', 'b'] ∧ escByte 12 = ['\\', 'f']
      ∧ ((1 : Nat) < 32 → (1 : Nat) ∉ ([34, 92, 10, 13, 9, 8, 12] : List Nat) →
          escByte 1 = ['\\', 'u', '0', '0', hexDigit (1 / 16), hexDigit (1 % 16)]
            ∧ (escByte 1).length = 6)
      ∧ (32 ≤ (1 : Nat) → (1 : Nat) ≠ 34 → (1 : Nat) ≠ 92 → escByte 1 = [Char.ofNat 1])) :=
  ⟨by decide, c2_json_escape_table [34, 1, 65] 1 (by decide)⟩

/-- Claim C4: the query threshold is
`(unix_now - 978307200 - minutes * 60) * 1e9` in exact integer
arithmetic, and a row qualifies on time exactly when its raw nanosecond
timestamp strictly exceeds it. -/
theorem c4_sql_threshold (unixNow minutes date : Int) (hm : 0 < minutes) :
    sqlThreshold unixNow minutes = (unixNow - 978307200 - minutes * 60) * 1000000000
    ∧ (rowTimeQualifies date unixNow minutes = true ↔ date > sqlThreshold unixNow minutes) := by
  refine ⟨rfl, ?_⟩
  simp [rowTimeQualifies, gt_iff_lt]

theorem c4_sql_threshold_witness :
    (0 : Int) < 20
    ∧ (sqlThreshold 1700000000 20 = ((1700000000 : Int) - 978307200 - 20 * 60) * 1000000000
      ∧ (rowTimeQualifies 721692799000000001 1700000000 20 = true
          ↔ (721692799000000001 : Int) > sqlThreshold 1700000000 20)) :=
  ⟨by decide, c4_sql_threshold 1700000000 20 721692799000000001 (by decide)⟩

/-- Claim C5: a NULL column is rendered as the empty JSON string `""`, never as
JSON `null`: `print_json_string(NULL)` prints exactly `""`, and each of the
three object fields goes through `print_json_string`. -/
theorem c5_null_renders_empty_string :
    printJsonString none = ("\"\"").data
    ∧ printJsonString none ≠ ("null").data
    ∧ (∀ t d, emitRow ⟨none, t, d⟩
        = ("\x7b\"guid\":\"\",\"text\":").data ++ printJsonString t
          ++ (",\"date_local\":").data ++ printJsonString d ++ ("\x7d").data)
    ∧ (∀ g d, emitRow ⟨g, none, d⟩
        = ("\x7b\"guid\":").data ++ printJsonString g
          ++ (",\"text\":\"\",\"date_local\":").data ++ printJsonString d ++ ("\x7d").data)
    ∧ (∀ g t, emitRow ⟨g, t, none⟩
        = ("\x7b\"guid\":").data ++ printJsonString g
          ++ (",\"text\":").data ++ printJsonString t
          ++ (",\"date_local\":\"\"\x7d").data) := by
  refine ⟨rfl, by decide, fun t d => rfl, fun g d => ?_, fun g t => ?_⟩
  · simp [emitRow, printJsonString, List.append_assoc]
  · simp [emitRow, printJsonString, List.append_assoc]

/-- Claim C7: on byte strings containing a double quote, a backslash, a newline
and the control byte 0x01, the emitted literal is accepted by a standard
JSON string-literal parser and decodes back to the original bytes. -/
theorem c7_escape_decode_roundtrip (bs : List Nat)
    (hbytes : (bs.all fun c => decide (c < 256)) = true)
    (h34 : 34 ∈ bs) (h92 : 92 ∈ bs) (h10 : 10 ∈ bs) (h01 : 1 ∈ bs) :
    decodeJsonStringLit (printJsonString (some bs)) = some bs := by
  have h : ∀ c ∈ bs, c < 256 := by
    intro c hcm
    simpa using List.all_eq_true.mp hbytes c hcm
  show decodeLitBody (escLoop bs ++ ['"']) = some bs
  exact decode_escLoop bs h

theorem c7_escape_decode_roundtrip_witness :
    (([34, 92, 10, 1, 106] : List Nat).all fun c => decide (c < 256)) = true
    ∧ 34 ∈ ([34, 92, 10, 1, 106] : List Nat)
    ∧ 92 ∈ ([34, 92, 10, 1, 106] : List Nat)
    ∧ 10 ∈ ([34, 92, 10, 1, 106] : List Nat)
    ∧ 1 ∈ ([34, 92, 10, 1, 106] : List Nat)
    ∧ decodeJsonStringLit (printJsonString (some [34, 92, 10, 1, 106]))
        = some [34, 92, 10, 1, 106] :=
  ⟨by decide, by decide, by decide, by decide, by decide,
    c7_escape_decode_roundtrip [34, 92, 10, 1, 106] (by decide)
      (by decide) (by decide) (by decide) (by decide)⟩

/-- Claim C9: repeated `--minutes` flags whose values all have a positive integer
prefix are all accepted, and the last occurrence supplies the lookback
value. -/
theorem c9_repeated_minutes_last_wins (prog : String) (vs : List String) (vlast : String)
    (hall : ∀ v ∈ vs, 0 < atoi v) (hlast : 0 < atoi vlast) :
    parseArgsLoop prog (minutesArgs (vs ++ [vlast])) 20 = .ok (atoi vlast) := by
  rw [parse_minutesArgs prog (vs ++ [vlast]) 20 ?hall]
  case hall =>
    intro v hv
    rcases List.mem_append.mp hv with h | h
    · exact hall v h
    · simp only [List.mem_singleton] at h
      exact h ▸ hlast
  simp [List.map_append]

theorem c9_repeated_minutes_last_wins_witness :
    (∀ v ∈ (["5"] : List String), 0 < atoi v)
    ∧ 0 < atoi "7"
    ∧ parseArgsLoop "imessage-reader" (minutesArgs (["5"] ++ ["7"])) 20 = .ok (atoi "7")
    ∧ atoi "7" = 7 :=
  ⟨by decide, by decide,
    c9_repeated_minutes_last_wins "imessage-reader" ["5"] "7" (by decide) (by decide),
    by decide⟩

theorem runProgram_query_phase (e : Env) (m : Int) (hd : List Char)
    (hp : parseArgsLoop e.prog e.args 20 = .ok m)
    (hh : homeDirOf e = some hd)
    (ho : e.openOk = true) (hq : e.prepareOk = true) (hb : e.bindOk = true) :
    runProgram e =
      if e.stepError then
        ⟨'[' :: emitRowsLoop e.rows 0 ++ [']', '\n'],
          ("Error: query execution failed: ").data ++ e.errmsg ++ ("\n").data,
          1, some m, some (buildDbPath hd)⟩
      else
        ⟨'[' :: emitRowsLoop e.rows 0 ++ [']', '\n'], [], 0, some m, some (buildDbPath hd)⟩ := by
  simp [runProgram, hp, hh, ho, hq, hb]

/-- Claim C3: on a successful run the whole standard output is one JSON array:
the rows' objects joined by single commas with no trailing comma between
`[` and `]` plus a final newline, exit status 0, and exactly `[]` plus a
newline when no row matched. -/
theorem c3_output_array (e : Env) (m : Int) (hd : List Char)
    (hp : parseArgsLoop e.prog e.args 20 = .ok m)
    (hh : homeDirOf e = some hd)
    (ho : e.openOk = true) (hq : e.prepareOk = true) (hb : e.bindOk = true)
    (hs : e.stepError = false) :
    (runProgram e).stdout = '[' :: (sepByComma (e.rows.map emitRow) ++ [']', '\n'])
    ∧ (runProgram e).exitCode = 0
    ∧ (e.rows = [] → (runProgram e).stdout = ("[]\n").data) := by
  rw [runProgram_query_phase e m hd hp hh ho hq hb, hs]
  refine ⟨by simp [emitRowsLoop_zero], rfl, fun hr => by simp [hr, emitRowsLoop]⟩

/-- Claim C6: when a row fetch fails mid-iteration, the program writes a
diagnostic on standard error and exits with a non-zero status. -/
theorem c6_midstream_error (e : Env) (m : Int) (hd : List Char)
    (hp : parseArgsLoop e.prog e.args 20 = .ok m)
    (hh : homeDirOf e = some hd)
    (ho : e.openOk = true) (hq : e.prepareOk = true) (hb : e.bindOk = true)
    (hs : e.stepError = true) :
    (runProgram e).stderr ≠ [] ∧ (runProgram e).exitCode ≠ 0 := by
  rw [runProgram_query_phase e m hd hp hh ho hq hb, hs]
  refine ⟨fun hcontra => ?_, by simp⟩
  have hE := (List.append_eq_nil.mp (List.append_eq_nil.mp hcontra).1).1
  exact absurd hE (by decide)

/-- Claim C8: even on the mid-iteration error path, `]` and the newline are
printed before the error check, so standard output is the complete JSON
array of the rows fetched so far, and the exit status is 1. -/
theorem c8_error_path_closes_array (e : Env) (m : Int) (hd : List Char)
    (hp : parseArgsLoop e.prog e.args 20 = .ok m)
    (hh : homeDirOf e = some hd)
    (ho : e.openOk = true) (hq : e.prepareOk = true) (hb : e.bindOk = true)
    (hs : e.stepError = true) :
    (runProgram e).stdout = '[' :: (sepByComma (e.rows.map emitRow) ++ [']', '\n'])
    ∧ (runProgram e).exitCode = 1 := by
  rw [runProgram_query_phase e m hd hp hh ho hq hb, hs]
  exact ⟨by simp [emitRowsLoop_zero], rfl⟩

/-- Claim C10: an over-long home directory makes the database path silently
truncate to 1023 bytes, and the program still proceeds to open the
truncated path. -/
theorem c10_path_truncation (e : Env) (m : Int) (hd : List Char)
    (hp : parseArgsLoop e.prog e.args 20 = .ok m)
    (hh : homeDirOf e = some hd)
    (hlong : 1023 < (hd ++ dbSuffix).length) :
    buildDbPath hd = (hd ++ dbSuffix).take 1023
    ∧ (buildDbPath hd).length = 1023
    ∧ buildDbPath hd ≠ hd ++ dbSuffix
    ∧ (runProgram e).pathOpened = some (buildDbPath hd) := by
  simp only [List.length_append] at hlong
  refine ⟨rfl, ?_, ?_, ?_⟩
  · simp only [buildDbPath, List.length_take, List.length_append]
    omega
  · intro hcontra
    have hlen := congrArg List.length hcontra
    simp only [buildDbPath, List.length_take, List.length_append] at hlen
    omega
  · simp only [runProgram, hp, hh]
    cases ho : e.openOk <;> cases hq : e.prepareOk <;> cases hb : e.bindOk <;>
      cases hs : e.stepError <;> simp

/-- Claim C1 as stated is false: `3abc` is non-numeric, yet `atoi` reads its
prefix `3`, the run exits 0 and binds 3 as the lookback window instead of
exiting 1. -/
theorem c1_nonnumeric_value_accepted_counterexample :
    isNumericStr "3abc" = false
    ∧ parseArgsLoop envC1.prog envC1.args 20 = .ok 3
    ∧ (runProgram envC1).exitCode = 0
    ∧ (runProgram envC1).minutesBound = some 3 :=
  ⟨by decide, rfl, by decide, by decide⟩

/-- Claim C1 (amended): positive `atoi` prefix accepted and used as the lookback
window; `atoi` result `≤ 0` (all non-positive numerals and all strings
without a positive digit prefix) exits 1 with no standard output. -/
theorem c1_minutes_atoi_validation (e : Env) (v : String)
    (hargs : e.args = ["--minutes", v]) :
    (0 < atoi v → parseArgsLoop e.prog e.args 20 = .ok (atoi v))
    ∧ (atoi v ≤ 0 → (runProgram e).stdout = [] ∧ (runProgram e).exitCode = 1
        ∧ (runProgram e).minutesBound = none)
    ∧ (0 < atoi v → e.openOk = true → e.prepareOk = true →
        homeDirOf e ≠ none → (runProgram e).minutesBound = some (atoi v)) := by
  refine ⟨fun hpos => ?_, fun hneg => ?_, fun hpos ho hq hh => ?_⟩
  · rw [hargs]
    simp [parseArgsLoop, show ¬ atoi v ≤ 0 from by omega]
  · have hp : parseArgsLoop e.prog e.args 20
        = .error ("Error: minutes must be a positive integer\n").data := by
      rw [hargs]
      simp [parseArgsLoop, hneg]
    simp [runProgram, hp]
  · have hp : parseArgsLoop e.prog e.args 20 = .ok (atoi v) := by
      rw [hargs]
      simp [parseArgsLoop, show ¬ atoi v ≤ 0 from by omega]
    obtain ⟨hd, hhd⟩ := Option.ne_none_iff_exists'.mp hh
    simp only [runProgram, hp, hhd]
    cases hb : e.bindOk <;> cases hs : e.stepError <;> simp [ho, hq, hb, hs]

theorem c1_minutes_atoi_validation_witness :
    envC1w.args = ["--minutes", "15"]
    ∧ ((0 < atoi "15" → parseArgsLoop envC1w.prog envC1w.args 20 = .ok (atoi "15"))
      ∧ (atoi "15" ≤ 0 → (runProgram envC1w).stdout = [] ∧ (runProgram envC1w).exitCode = 1
          ∧ (runProgram envC1w).minutesBound = none)
      ∧ (0 < atoi "15" → envC1w.openOk = true → envC1w.prepareOk = true →
          homeDirOf envC1w ≠ none → (runProgram envC1w).minutesBound = some (atoi "15"))) :=
  ⟨rfl, c1_minutes_atoi_validation envC1w "15" rfl⟩

theorem c3_output_array_witness :
    parseArgsLoop envRows.prog envRows.args 20 = .ok 20
    ∧ homeDirOf envRows = some ("/Users/u").data
    ∧ envRows.openOk = true ∧ envRows.prepareOk = true ∧ envRows.bindOk = true
    ∧ envRows.stepError = false
    ∧ ((runProgram envRows).stdout
        = '[' :: (sepByComma (envRows.rows.map emitRow) ++ [']', '\n'])
      ∧ (runProgram envRows).exitCode = 0
      ∧ (envRows.rows = [] → (runProgram envRows).stdout = ("[]\n").data)) :=
  ⟨rfl, rfl, rfl, rfl, rfl, rfl,
    c3_output_array envRows 20 ("/Users/u").data rfl rfl rfl rfl rfl rfl⟩

theorem c6_midstream_error_witness :
    parseArgsLoop envStepErr.prog envStepErr.args 20 = .ok 20
    ∧ homeDirOf envStepErr = some ("/Users/u").data
    ∧ envStepErr.openOk = true ∧ envStepErr.prepareOk = true ∧ envStepErr.bindOk = true
    ∧ envStepErr.stepError = true
    ∧ ((runProgram envStepErr).stderr ≠ [] ∧ (runProgram envStepErr).exitCode ≠ 0) :=
  ⟨rfl, rfl, rfl, rfl, rfl, rfl,
    c6_midstream_error envStepErr 20 ("/Users/u").data rfl rfl rfl rfl rfl rfl⟩

theorem c8_error_path_closes_array_witness :
    parseArgsLoop envStepErr.prog envStepErr.args 20 = .ok 20
    ∧ homeDirOf envStepErr = some ("/Users/u").data
    ∧ envStepErr.openOk = true ∧ envStepErr.prepareOk = true ∧ envStepErr.bindOk = true
    ∧ envStepErr.stepError = true
    ∧ ((runProgram envStepErr).stdout
        = '[' :: (sepByComma (envStepErr.rows.map emitRow) ++ [']', '\n'])
      ∧ (runProgram envStepErr).exitCode = 1) :=
  ⟨rfl, rfl, rfl, rfl, rfl, rfl,
    c8_error_path_closes_array envStepErr 20 ("/Users/u").data rfl rfl rfl rfl rfl rfl⟩

theorem c10_path_truncation_witness :
    parseArgsLoop envLongHome.prog envLongHome.args 20 = .ok 20
    ∧ homeDirOf envLongHome = some (List.replicate 1100 'a')
    ∧ 1023 < (List.replicate 1100 'a' ++ dbSuffix).length
    ∧ (buildDbPath (List.replicate 1100 'a')
        = (List.replicate 1100 'a' ++ dbSuffix).take 1023
      ∧ (buildDbPath (List.replicate 1100 'a')).length = 1023
      ∧ buildDbPath (List.replicate 1100 'a') ≠ List.replicate 1100 'a' ++ dbSuffix
      ∧ (runProgram envLongHome).pathOpened = some (buildDbPath (List.replicate 1100 'a'))) :=
  ⟨rfl, rfl, by simp only [List.length_append, List.length_replicate]; decide,
    c10_path_truncation envLongHome 20 (List.replicate 1100 'a') rfl rfl
      (by simp only [List.length_append, List.length_replicate]; decide)⟩

end IMessageReader
